import Mathlib

/-!
Shallow embedding of `src/slack_pr_reminder.py`, a scheduled job that fetches
open pull requests from a Bitbucket repository, selects those still pending
review (no approval, title not ignored, stale beyond a threshold), resolves
reviewer emails to Slack handles through a CSV directory, and posts a single
batched reminder to a Slack channel.

Modelling conventions:
- Python `str` is `Str := List Char`; `str.lower()` is a character-wise map of
  `Char.toLower`; the substring test `a in b` is `strIn`.
- Instants are rational seconds since the epoch (`updatedDate` is the raw
  epoch-millisecond integer from the review host, `now` is passed in).
- Module-level configuration read from the environment (`IGNORE_WORDS`,
  `PR_URL.format(repo=REPO)`) and the loaded CSV rows are passed as explicit
  parameters; `strf` abstracts the `datetime.strftime` display rendering,
  which no decision depends on.
- `get_pull_requests_info` can return Python `None`, the falsy empty dict
  `{}`, or a populated dict; the three are kept apart in `PrInfoResult`
  because truthiness (not `None`-ness) is what the caller tests.
- HTTP effects are made explicit: `send_to_slack` returns the list of posted
  payloads (always exactly one POST) together with normal return or raised
  exception as `Except`; `cli` returns the list of deliveries it performs.
-/

/-- Text, modelled as a list of characters (Python `str`). -/
abbrev Str := List Char

/-- Python `str.lower()`, modelled character-wise. -/
def lowerStr (s : Str) : Str := s.map Char.toLower

/-- Python substring containment `needle in haystack` for strings. -/
def strIn (needle : Str) : Str → Bool
  | [] => needle.isEmpty
  | c :: cs => needle.isPrefixOf (c :: cs) || strIn needle cs

/-- The module constant `PR_LAST_UPDATED = 5*60*60` (line 24): the staleness
threshold in seconds. -/
def PR_LAST_UPDATED : ℚ := 5 * 60 * 60

/-- Model of `is_valid_title` (lines 47-53): the title passes when no
configured ignore word occurs case-insensitively inside it. The module-level
`IGNORE_WORDS` list is passed explicitly. -/
def is_valid_title (IGNORE_WORDS : List Str) (title : Str) : Bool :=
  !(IGNORE_WORDS.any fun ignored_word => strIn (lowerStr ignored_word) (lowerStr title))

/-- One row of the `people.csv` file as `csv.DictReader` yields it: either
column may be missing (`None`) or present (possibly empty). -/
structure CsvRow where
  email : Option Str
  slack : Option Str

/-- One entry of the users list built by `match_emails_with_slack_names`. -/
structure Person where
  slack : Str
  email : Str
deriving DecidableEq

/-- Python truthiness of an optional string: `None` and `""` are falsy. -/
def truthyStrOpt : Option Str → Bool
  | none => false
  | some s => !s.isEmpty

/-- Model of `match_emails_with_slack_names` (lines 56-77): keep every row
whose `email` and `slack` fields are both present and non-empty, in file
order. Duplicate emails are all retained; nothing deduplicates. -/
def match_emails_with_slack_names (rows : List CsvRow) : List Person :=
  rows.foldl
    (fun users person =>
      if truthyStrOpt person.email && truthyStrOpt person.slack then
        users ++ [⟨person.slack.getD [], person.email.getD []⟩]
      else users)
    []

/-- The nested `reviewer['user']` object: carries the email address. -/
structure RUser where
  emailAddress : Str
deriving DecidableEq

/-- One element of `pull['reviewers']`: a reviewer and an approval flag. -/
structure Reviewer where
  user : RUser
  approved : Bool
deriving DecidableEq

/-- The nested `pull_request['author']['user']` object. -/
structure NamedUser where
  name : Str
deriving DecidableEq

/-- The `pull_request['author']` object. -/
structure Author where
  user : NamedUser
deriving DecidableEq

/-- A raw pull request as the review host returns it: the fields the script
reads. `updatedDate` is epoch milliseconds. -/
structure PullRequest where
  id : Nat
  title : Str
  author : Author
  updatedDate : Int
  reviewers : List Reviewer
deriving DecidableEq

/-- The accumulation loop inside `get_reviewers_list_if_not_approved`
(lines 90-95): walk the reviewers in order; on the first approved entry
return `None` at once, otherwise append the email and continue. -/
def reviewersLoop (acc : List Str) : List Reviewer → Option (List Str)
  | [] => some acc
  | reviewer :: rest =>
      if reviewer.approved then none
      else reviewersLoop (acc ++ [reviewer.user.emailAddress]) rest

/-- Model of `get_reviewers_list_if_not_approved` (lines 80-95). Note that an
empty reviewer list yields `some []` (Python returns the empty list, which is
falsy but is not `None`). -/
def get_reviewers_list_if_not_approved (pull : PullRequest) : Option (List Str) :=
  reviewersLoop [] pull.reviewers

/-- The double loop of lines 109-112: for each pending reviewer email, append
`'@' + slack` for every users-list row whose email matches. A reviewer
matching several rows contributes one handle per row, in users-list order. -/
def resolve_reviewers (users : List Person) (reviewers : List Str) : List Str :=
  reviewers.flatMap fun reviewer =>
    (users.filter fun user => user.email == reviewer).map fun user => '@' :: user.slack

/-- The dict built at lines 124-129 when a pull request qualifies. -/
structure PrDetails where
  author : Str
  pull_url : Str
  last_updated : Str
  title : Str
  reviewers : Str
deriving DecidableEq

/-- Possible results of `get_pull_requests_info`: Python `None` (explicit
`return None`), the falsy empty dict `{}` (fall-through when no pending
reviewers), or a populated details dict. -/
inductive PrInfoResult where
  | pyNone : PrInfoResult
  | emptyDict : PrInfoResult
  | details : PrDetails → PrInfoResult
deriving DecidableEq

/-- Python truthiness of a `get_pull_requests_info` result: only a populated
dict is truthy; `None` and `{}` are both falsy. -/
def PrInfoResult.isTruthy : PrInfoResult → Bool
  | .details _ => true
  | _ => false

/-- Decimal rendering of the pull-request id, Python `str(id)`. -/
def natToStr (n : Nat) : Str := (Nat.repr n).data

/-- The join at lines 128-129: wrap each resolved handle in angle brackets
and join with a comma and a space. -/
def angleJoin (users_slack : List Str) : Str :=
  List.intercalate (", ".data) (users_slack.map fun u => '<' :: (u ++ ['>']))

/-- Model of `get_pull_requests_info` (lines 98-137). `users` is the loaded
CSV directory, `IGNORE_WORDS` the configured ignore words, `pr_url` the value
of `PR_URL.format(repo=REPO)`, `now` the current instant in epoch seconds,
and `strf` the `strftime` display rendering of the last-updated instant. -/
def get_pull_requests_info (users : List Person) (IGNORE_WORDS : List Str)
    (pr_url : Str) (now : ℚ) (strf : ℚ → Str) (pull : PullRequest) : PrInfoResult :=
  match get_reviewers_list_if_not_approved pull with
  | none => .emptyDict
  | some [] => .emptyDict
  | some (r :: rs) =>
      let users_slack := resolve_reviewers users (r :: rs)
      if is_valid_title IGNORE_WORDS pull.title then
        let time := strf ((pull.updatedDate : ℚ) / 1000)
        let dif : ℚ := now - (pull.updatedDate : ℚ) / 1000
        if dif > PR_LAST_UPDATED then
          .details
            { author := pull.author.user.name
              pull_url := pr_url ++ natToStr pull.id
              last_updated := time
              title := pull.title
              reviewers := angleJoin users_slack }
        else .pyNone
      else .pyNone

/-- A Slack attachment as built by `format_attachment`. -/
structure Attachment where
  text : Str
  title : Str
  title_link : Str
deriving DecidableEq

/-- Model of `format_attachment` (lines 140-151). -/
def format_attachment (pr_details : PrDetails) : Attachment :=
  { text := "Reviewers: ".data ++ pr_details.reviewers ++ "\n Author: ".data ++
      pr_details.author ++ "\nLastUpdated: ".data ++ pr_details.last_updated
    title := pr_details.title
    title_link := pr_details.pull_url }

/-- The module constant `INITIAL_MESSAGE` (lines 41-44), the introductory
text of the Slack message. -/
def INITIAL_MESSAGE : Str :=
  "\nHi! There is a few open pull requests waiting for your review. \nYou should take a look at:\n".data

/-- The JSON payload `send_to_slack` posts (lines 170-176). -/
structure SlackPayload where
  channel : Str
  username : Str
  icon_emoji : Str
  text : Str
  attachments : List Attachment
deriving DecidableEq

/-- The payload dict of lines 170-176 for a given attachment list and
channel. -/
def mkSlackPayload (text : List Attachment) (channel : Str) : SlackPayload :=
  { channel := channel
    username := "Pull Request Reminder".data
    icon_emoji := ":bell:".data
    text := INITIAL_MESSAGE
    attachments := text }

/-- Model of `send_to_slack` (lines 165-179). The first component records the
HTTP POSTs performed (always exactly one, before the status check; there is
no retry); the second is the control outcome for the given response status:
normal return, or the raised `Exception` when the status is not 200. -/
def send_to_slack (text : List Attachment) (channel : Str) (status_code : Nat) :
    List SlackPayload × Except Str Unit :=
  ([mkSlackPayload text channel],
   if !(status_code == 200) then .error "Error sending slack message".data
   else .ok ())

/-- The review-host response shape `cli` reads: `pulls['size']` and
`pulls['values']`. -/
structure PullsResponse where
  size : Nat
  values : List PullRequest
deriving DecidableEq

/-- The loop body of `cli` (lines 194-198): a truthy `get_pull_requests_info`
result is formatted into an attachment, a falsy one contributes nothing. -/
def attachment_of (users : List Person) (IGNORE_WORDS : List Str) (pr_url : Str)
    (now : ℚ) (strf : ℚ → Str) (pull : PullRequest) : Option Attachment :=
  match get_pull_requests_info users IGNORE_WORDS pr_url now strf pull with
  | .details lines => some (format_attachment lines)
  | _ => none

/-- Model of the delivery behaviour of `cli` (lines 182-201): the list of
Slack POSTs the run performs. Attachments are collected only when
`pulls['size']` is truthy; one batched payload is sent when the collected
list is non-empty, and nothing is sent otherwise. -/
def cli (users : List Person) (IGNORE_WORDS : List Str) (pr_url : Str) (now : ℚ)
    (strf : ℚ → Str) (channel : Str) (pulls : PullsResponse) : List SlackPayload :=
  let attachments : List Attachment :=
    if pulls.size ≠ 0 then
      pulls.values.filterMap (attachment_of users IGNORE_WORDS pr_url now strf)
    else []
  if attachments.isEmpty then [] else [mkSlackPayload attachments channel]

/-! ## Helper lemmas about the embedded definitions -/

/-- List prefix test characterized as an existential decomposition. -/
theorem isPrefixOf_eq_true_iff (l₁ l₂ : Str) :
    l₁.isPrefixOf l₂ = true ↔ ∃ t, l₁ ++ t = l₂ := by
  induction l₁ generalizing l₂ with
  | nil => simp [List.isPrefixOf]
  | cons a as ih =>
    cases l₂ with
    | nil => simp [List.isPrefixOf]
    | cons b bs =>
      simp only [List.isPrefixOf, Bool.and_eq_true, beq_iff_eq, ih, List.cons_append,
        List.cons.injEq]
      constructor
      · rintro ⟨rfl, t, rfl⟩
        exact ⟨t, rfl, rfl⟩
      · rintro ⟨t, rfl, rfl⟩
        exact ⟨rfl, t, rfl⟩

/-- Python substring containment characterized as an existential
decomposition. -/
theorem strIn_iff (needle haystack : Str) :
    strIn needle haystack = true ↔ ∃ s t, s ++ needle ++ t = haystack := by
  induction haystack with
  | nil =>
    constructor
    · intro h
      have hn : needle = [] := by simpa [strIn, List.isEmpty_iff] using h
      exact ⟨[], [], by simp [hn]⟩
    · rintro ⟨s, t, h⟩
      have h2 := List.append_eq_nil.mp h
      have hn : needle = [] := (List.append_eq_nil.mp h2.1).2
      simp [strIn, List.isEmpty_iff, hn]
  | cons c cs ih =>
    simp only [strIn, Bool.or_eq_true, isPrefixOf_eq_true_iff, ih]
    constructor
    · rintro (⟨t, ht⟩ | ⟨s, t, ht⟩)
      · exact ⟨[], t, by simpa using ht⟩
      · exact ⟨c :: s, t, by simp [ht]⟩
    · rintro ⟨s, t, h⟩
      cases s with
      | nil =>
        left
        exact ⟨t, by simpa using h⟩
      | cons d ds =>
        right
        rw [List.cons_append, List.cons_append, List.cons.injEq] at h
        exact ⟨ds, t, by simpa using h.2⟩

/-- The reviewers loop either hits an approved entry and returns `none`, or
returns the accumulator extended with every email in order. -/
theorem reviewersLoop_eq (acc : List Str) (rs : List Reviewer) :
    reviewersLoop acc rs =
      if rs.any (fun r => r.approved) then none
      else some (acc ++ rs.map fun r => r.user.emailAddress) := by
  induction rs generalizing acc with
  | nil => simp [reviewersLoop]
  | cons r rest ih =>
    by_cases h : r.approved
    · simp [reviewersLoop, h]
    · simp [reviewersLoop, h, ih]

/-- Closed form of the approval aggregator. -/
theorem get_reviewers_eq (pull : PullRequest) :
    get_reviewers_list_if_not_approved pull =
      if pull.reviewers.any (fun r => r.approved) then none
      else some (pull.reviewers.map fun r => r.user.emailAddress) := by
  rw [get_reviewers_list_if_not_approved, reviewersLoop_eq]
  simp

/-- Truthiness of a summarizer result means a populated details dict. -/
theorem isTruthy_iff (res : PrInfoResult) :
    res.isTruthy = true ↔ ∃ d, res = .details d := by
  cases res <;> simp [PrInfoResult.isTruthy]

/-- Closed form of the review summarizer as a chain of guards. -/
theorem info_eq (users : List Person) (IGNORE_WORDS : List Str) (pr_url : Str)
    (now : ℚ) (strf : ℚ → Str) (pull : PullRequest) :
    get_pull_requests_info users IGNORE_WORDS pr_url now strf pull =
      if pull.reviewers.any (fun r => r.approved) then .emptyDict
      else if pull.reviewers.isEmpty then .emptyDict
      else if is_valid_title IGNORE_WORDS pull.title then
        if now - (pull.updatedDate : ℚ) / 1000 > PR_LAST_UPDATED then
          .details
            { author := pull.author.user.name
              pull_url := pr_url ++ natToStr pull.id
              last_updated := strf ((pull.updatedDate : ℚ) / 1000)
              title := pull.title
              reviewers := angleJoin (resolve_reviewers users
                (pull.reviewers.map fun r => r.user.emailAddress)) }
        else .pyNone
      else .pyNone := by
  cases hcons : pull.reviewers with
  | nil =>
    have hrev : get_reviewers_list_if_not_approved pull = some [] := by
      rw [get_reviewers_eq, hcons]
      simp
    unfold get_pull_requests_info
    rw [hrev]
    simp
  | cons r rs =>
    by_cases hany : (r :: rs).any (fun x => x.approved)
    · have hrev : get_reviewers_list_if_not_approved pull = none := by
        rw [get_reviewers_eq, hcons]
        simp [hany]
      unfold get_pull_requests_info
      rw [hrev]
      simp [hany]
    · have hrev : get_reviewers_list_if_not_approved pull =
          some ((r :: rs).map fun x => x.user.emailAddress) := by
        rw [get_reviewers_eq, hcons]
        simp [hany]
      unfold get_pull_requests_info
      rw [hrev]
      simp [hany]

/-- A users list with no row for an email contributes nothing for it. -/
theorem filter_email_eq_nil (l : List Person) (e : Str) (h : ∀ u ∈ l, u.email ≠ e) :
    (l.filter fun u => u.email == e) = [] := by
  rw [List.filter_eq_nil_iff]
  intro u hu
  simp [h u hu]

/-- Resolution of a single email is the map over all matching rows. -/
theorem resolve_reviewers_singleton (users : List Person) (e : Str) :
    resolve_reviewers users [e] =
      (users.filter fun u => u.email == e).map fun u => '@' :: u.slack := by
  simp [resolve_reviewers]

/-- When no pending reviewer appears in the users list, resolution yields
the empty handle list. -/
theorem resolve_reviewers_all_unknown (users : List Person) (revs : List Str)
    (h : ∀ r ∈ revs, ∀ u ∈ users, u.email ≠ r) :
    resolve_reviewers users revs = [] := by
  induction revs with
  | nil => rfl
  | cons r rs ih =>
    have h1 : (users.filter fun u => u.email == r) = [] :=
      filter_email_eq_nil users r (fun u hu => h r (List.mem_cons_self r rs) u hu)
    have h2 : resolve_reviewers users rs = [] :=
      ih (fun x hx u hu => h x (List.mem_cons_of_mem r hx) u hu)
    rw [resolve_reviewers] at h2 ⊢
    rw [List.flatMap_cons, h1, h2]
    simp

/-- Joining no handles yields the empty reviewers text. -/
theorem angleJoin_nil : angleJoin [] = [] := rfl

/-- Boolean `any approved` is false when every entry is unapproved. -/
theorem any_approved_false (pull : PullRequest)
    (h2 : ∀ r ∈ pull.reviewers, r.approved = false) :
    pull.reviewers.any (fun r => r.approved) = false := by
  rw [List.any_eq_false]
  intro r hr
  simp [h2 r hr]

/-- A non-empty list is not `isEmpty`. -/
theorem isEmpty_eq_false_of_ne_nil {α : Type} (l : List α) (h : l ≠ []) :
    l.isEmpty = false := by
  cases l with
  | nil => cases h rfl
  | cons a as => rfl

/-- The summarizer on the fully qualifying path: pending reviewers exist,
none approved, the title passes and the request is stale. -/
theorem info_pos (users : List Person) (IGNORE_WORDS : List Str) (pr_url : Str)
    (now : ℚ) (strf : ℚ → Str) (pull : PullRequest)
    (h1 : pull.reviewers ≠ [])
    (h2 : ∀ r ∈ pull.reviewers, r.approved = false)
    (h3 : is_valid_title IGNORE_WORDS pull.title = true)
    (h4 : now - (pull.updatedDate : ℚ) / 1000 > PR_LAST_UPDATED) :
    get_pull_requests_info users IGNORE_WORDS pr_url now strf pull =
      .details
        { author := pull.author.user.name
          pull_url := pr_url ++ natToStr pull.id
          last_updated := strf ((pull.updatedDate : ℚ) / 1000)
          title := pull.title
          reviewers := angleJoin (resolve_reviewers users
            (pull.reviewers.map fun r => r.user.emailAddress)) } := by
  rw [info_eq, if_neg (by simp [any_approved_false pull h2]),
    if_neg (by simp [isEmpty_eq_false_of_ne_nil _ h1]), if_pos h3, if_pos h4]

/-- The loop body drops a request exactly when its summary is falsy. -/
theorem attachment_of_eq_none_iff (users : List Person) (IGNORE_WORDS : List Str)
    (pr_url : Str) (now : ℚ) (strf : ℚ → Str) (pull : PullRequest) :
    attachment_of users IGNORE_WORDS pr_url now strf pull = none ↔
      (get_pull_requests_info users IGNORE_WORDS pr_url now strf pull).isTruthy = false := by
  unfold attachment_of
  cases get_pull_requests_info users IGNORE_WORDS pr_url now strf pull <;>
    simp [PrInfoResult.isTruthy]

/-- The empty string is a substring of every string. -/
theorem strIn_nil_left (haystack : Str) : strIn [] haystack = true := by
  cases haystack <;> simp [strIn]

/-! ## Claim theorems -/

/-- C1: for every reviewer sequence containing at least one approved entry,
`get_reviewers_list_if_not_approved` returns `None`, regardless of how many
unapproved entries precede or follow it, and the summarizer produces no
reminder for that request. -/
theorem C1_any_approval_silences (users : List Person) (IGNORE_WORDS : List Str)
    (pr_url : Str) (now : ℚ) (strf : ℚ → Str) (pull : PullRequest)
    (h : ∃ r ∈ pull.reviewers, r.approved = true) :
    get_reviewers_list_if_not_approved pull = none ∧
    (get_pull_requests_info users IGNORE_WORDS pr_url now strf pull).isTruthy = false := by
  have hany : pull.reviewers.any (fun r => r.approved) = true := by
    rw [List.any_eq_true]
    obtain ⟨r, hr, ha⟩ := h
    exact ⟨r, hr, ha⟩
  constructor
  · rw [get_reviewers_eq, if_pos hany]
  · rw [info_eq, if_pos hany]
    rfl

/-- C1 witness: one unapproved entry before an approved one. -/
theorem C1_any_approval_silences_witness :
    get_reviewers_list_if_not_approved
        ⟨1, "t".data, ⟨⟨"b".data⟩⟩, 0, [⟨⟨"e".data⟩, false⟩, ⟨⟨"f".data⟩, true⟩]⟩ = none ∧
    (get_pull_requests_info [] [] [] 0 (fun _ => [])
        ⟨1, "t".data, ⟨⟨"b".data⟩⟩, 0,
          [⟨⟨"e".data⟩, false⟩, ⟨⟨"f".data⟩, true⟩]⟩).isTruthy = false :=
  C1_any_approval_silences [] [] [] 0 (fun _ => []) _
    ⟨⟨⟨"f".data⟩, true⟩, by decide, rfl⟩

/-- C2: the summarizer yields a populated reminder record exactly when the
request has at least one reviewer, no reviewer approved, the title passes
the filter, and the elapsed seconds since last update exceed the
threshold; if any condition fails the result is falsy (absent). -/
theorem C2_reminder_iff_conditions (users : List Person) (IGNORE_WORDS : List Str)
    (pr_url : Str) (now : ℚ) (strf : ℚ → Str) (pull : PullRequest) :
    (∃ d, get_pull_requests_info users IGNORE_WORDS pr_url now strf pull =
        .details d) ↔
      (pull.reviewers ≠ [] ∧
       (∀ r ∈ pull.reviewers, r.approved = false) ∧
       is_valid_title IGNORE_WORDS pull.title = true ∧
       now - (pull.updatedDate : ℚ) / 1000 > PR_LAST_UPDATED) := by
  rw [info_eq]
  by_cases hany : pull.reviewers.any (fun r => r.approved) = true
  · rw [if_pos hany]
    rw [List.any_eq_true] at hany
    obtain ⟨r, hr, ha⟩ := hany
    constructor
    · rintro ⟨d, hd⟩
      cases hd
    · rintro ⟨-, h2, -, -⟩
      rw [h2 r hr] at ha
      cases ha
  · rw [if_neg hany]
    have h2 : ∀ r ∈ pull.reviewers, r.approved = false := by
      intro r hr
      by_contra hc
      exact hany (List.any_eq_true.mpr ⟨r, hr, by simpa using hc⟩)
    by_cases hemp : pull.reviewers.isEmpty = true
    · rw [if_pos hemp]
      have hnil : pull.reviewers = [] := List.isEmpty_iff.mp hemp
      constructor
      · rintro ⟨d, hd⟩
        cases hd
      · rintro ⟨h1, -, -, -⟩
        exact absurd hnil h1
    · rw [if_neg hemp]
      have h1 : pull.reviewers ≠ [] := by
        intro hnil
        exact hemp (by simp [hnil])
      by_cases hvalid : is_valid_title IGNORE_WORDS pull.title = true
      · rw [if_pos hvalid]
        by_cases hstale : now - (pull.updatedDate : ℚ) / 1000 > PR_LAST_UPDATED
        · rw [if_pos hstale]
          constructor
          · rintro -
            exact ⟨h1, h2, hvalid, hstale⟩
          · rintro -
            exact ⟨_, rfl⟩
        · rw [if_neg hstale]
          constructor
          · rintro ⟨d, hd⟩
            cases hd
          · rintro ⟨-, -, -, h4⟩
            exact absurd h4 hstale
      · rw [if_neg hvalid]
        constructor
        · rintro ⟨d, hd⟩
          cases hd
        · rintro ⟨-, -, h3, -⟩
          exact absurd h3 hvalid

/-- C2 witness: all four conditions hold at a concrete request and a record
is produced. -/
theorem C2_reminder_iff_conditions_witness :
    ∃ d, get_pull_requests_info [] [] [] 18001 (fun _ => [])
        ⟨7, "T".data, ⟨⟨"b".data⟩⟩, 0, [⟨⟨"a".data⟩, false⟩]⟩ = .details d :=
  (C2_reminder_iff_conditions [] [] [] 18001 (fun _ => []) _).mpr
    ⟨by decide, by decide, by decide, by norm_num [PR_LAST_UPDATED]⟩

/-- C3 counterexample: on the empty reviewer sequence the aggregator returns
the empty list (`some []`), not `None`, contradicting the claim that it
returns absent (`None`). -/
theorem C3_empty_reviewers_counterexample :
    get_reviewers_list_if_not_approved ⟨1, "t".data, ⟨⟨"b".data⟩⟩, 0, []⟩ = some [] ∧
    get_reviewers_list_if_not_approved ⟨1, "t".data, ⟨⟨"b".data⟩⟩, 0, []⟩ ≠ none := by
  constructor
  · rfl
  · decide

/-- C3 (amended): for the empty reviewer sequence the aggregator returns the
empty list — a falsy value that the caller treats as absent — and no reminder
is generated for the request. -/
theorem C3_empty_reviewers_amended (users : List Person) (IGNORE_WORDS : List Str)
    (pr_url : Str) (now : ℚ) (strf : ℚ → Str) (pull : PullRequest)
    (h : pull.reviewers = []) :
    get_reviewers_list_if_not_approved pull = some [] ∧
    (get_pull_requests_info users IGNORE_WORDS pr_url now strf pull).isTruthy = false := by
  constructor
  · rw [get_reviewers_eq, h]
    rfl
  · rw [info_eq, h]
    rfl

/-- C3 witness: a concrete request with no reviewers. -/
theorem C3_empty_reviewers_amended_witness :
    get_reviewers_list_if_not_approved ⟨2, "u".data, ⟨⟨"c".data⟩⟩, 5, []⟩ = some [] ∧
    (get_pull_requests_info [] [] [] 0 (fun _ => [])
        ⟨2, "u".data, ⟨⟨"c".data⟩⟩, 5, []⟩).isTruthy = false :=
  C3_empty_reviewers_amended [] [] [] 0 (fun _ => []) _ rfl

/-- C4: the title filter returns `false` exactly when some configured ignore
word is a case-insensitive substring of the title, and with an empty
ignore-word list every title is allowed. -/
theorem C4_title_filter_characterization :
    (∀ (IGNORE_WORDS : List Str) (title : Str),
        is_valid_title IGNORE_WORDS title = false ↔
          ∃ w ∈ IGNORE_WORDS, ∃ s t, s ++ lowerStr w ++ t = lowerStr title) ∧
    (∀ title : Str, is_valid_title [] title = true) := by
  constructor
  · intro ws title
    simp only [is_valid_title, Bool.not_eq_false', List.any_eq_true, strIn_iff]
  · intro title
    rfl

/-- C4 witness: ignore word `wip` rejects `WIP: fix bug`; the empty list
allows it. -/
theorem C4_title_filter_characterization_witness :
    is_valid_title ["wip".data] ("WIP: fix bug".data) = false ∧
    is_valid_title [] ("WIP: fix bug".data) = true :=
  ⟨(C4_title_filter_characterization.1 ["wip".data] ("WIP: fix bug".data)).mpr
      ⟨"wip".data, by decide, [], ": fix bug".data, by decide⟩,
    C4_title_filter_characterization.2 ("WIP: fix bug".data)⟩

/-- C5: the staleness gate is a strict comparison against the 18000-second
threshold: with the other conditions holding, elapsed exactly 18000 seconds
produces no reminder and elapsed 18001 seconds produces one. -/
theorem C5_staleness_strict_boundary (users : List Person) (IGNORE_WORDS : List Str)
    (pr_url : Str) (strf : ℚ → Str) (pull : PullRequest)
    (h1 : pull.reviewers ≠ [])
    (h2 : ∀ r ∈ pull.reviewers, r.approved = false)
    (h3 : is_valid_title IGNORE_WORDS pull.title = true) :
    PR_LAST_UPDATED = 18000 ∧
    (get_pull_requests_info users IGNORE_WORDS pr_url
        ((pull.updatedDate : ℚ) / 1000 + 18000) strf pull).isTruthy = false ∧
    (get_pull_requests_info users IGNORE_WORDS pr_url
        ((pull.updatedDate : ℚ) / 1000 + 18001) strf pull).isTruthy = true := by
  have hthr : PR_LAST_UPDATED = 18000 := by norm_num [PR_LAST_UPDATED]
  refine ⟨hthr, ?_, ?_⟩
  · rw [info_eq, if_neg (by simp [any_approved_false pull h2]),
      if_neg (by simp [isEmpty_eq_false_of_ne_nil _ h1]), if_pos h3,
      if_neg (by rw [hthr]; norm_num)]
    rfl
  · rw [info_pos users IGNORE_WORDS pr_url _ strf pull h1 h2 h3
      (by rw [hthr]; norm_num)]
    rfl

/-- C5 witness: a concrete request updated at epoch 0, probed at exactly the
threshold and one second past it. -/
theorem C5_staleness_strict_boundary_witness :
    PR_LAST_UPDATED = 18000 ∧
    (get_pull_requests_info [] [] [] (((0 : Int) : ℚ) / 1000 + 18000) (fun _ => [])
        ⟨7, "T".data, ⟨⟨"b".data⟩⟩, 0, [⟨⟨"a".data⟩, false⟩]⟩).isTruthy = false ∧
    (get_pull_requests_info [] [] [] (((0 : Int) : ℚ) / 1000 + 18001) (fun _ => [])
        ⟨7, "T".data, ⟨⟨"b".data⟩⟩, 0, [⟨⟨"a".data⟩, false⟩]⟩).isTruthy = true :=
  C5_staleness_strict_boundary [] [] [] (fun _ => [])
    ⟨7, "T".data, ⟨⟨"b".data⟩⟩, 0, [⟨⟨"a".data⟩, false⟩]⟩
    (by decide) (by decide) (by decide)

/-- C6 counterexample: a directory built from two CSV rows carrying the same
email resolves that email to TWO handles, refuting "at most one handle per
email" and "first-seen handle wins" (both handles are kept, in row order). -/
theorem C6_duplicate_email_counterexample :
    resolve_reviewers
        (match_emails_with_slack_names
          [⟨some "a@x.com".data, some "s1".data⟩, ⟨some "a@x.com".data, some "s2".data⟩])
        ["a@x.com".data] =
      ['@' :: "s1".data, '@' :: "s2".data] ∧
    (resolve_reviewers
        (match_emails_with_slack_names
          [⟨some "a@x.com".data, some "s1".data⟩, ⟨some "a@x.com".data, some "s2".data⟩])
        ["a@x.com".data]).length = 2 := by
  constructor
  · decide
  · decide

/-- C6 (amended): resolution contributes one handle per matching directory
row, in directory order; duplicate rows for the same email each contribute
their handle (first-seen first), rather than the first-seen handle winning
alone. -/
theorem C6_duplicate_rows_all_contribute (pre mid post : List Person) (e : Str)
    (p q : Person) (hp : p.email = e) (hq : q.email = e)
    (h1 : ∀ u ∈ pre, u.email ≠ e) (h2 : ∀ u ∈ mid, u.email ≠ e)
    (h3 : ∀ u ∈ post, u.email ≠ e) :
    resolve_reviewers (pre ++ p :: (mid ++ q :: post)) [e] =
      ['@' :: p.slack, '@' :: q.slack] := by
  rw [resolve_reviewers_singleton, List.filter_append, filter_email_eq_nil pre e h1,
    List.filter_cons, List.filter_append, filter_email_eq_nil mid e h2,
    List.filter_cons, filter_email_eq_nil post e h3]
  simp [hp, hq]

/-- C6 witness: a non-matching row followed by two duplicate rows. -/
theorem C6_duplicate_rows_all_contribute_witness :
    resolve_reviewers
        ([⟨"x".data, "o".data⟩] ++ ⟨"s1".data, "a".data⟩ ::
          ([] ++ ⟨"s2".data, "a".data⟩ :: [])) ["a".data] =
      ['@' :: "s1".data, '@' :: "s2".data] :=
  C6_duplicate_rows_all_contribute [⟨"x".data, "o".data⟩] [] [] "a".data
    ⟨"s1".data, "a".data⟩ ⟨"s2".data, "a".data⟩ rfl rfl
    (by decide) (by decide) (by decide)

/-- C7: an email absent from the directory contributes no handle and causes
no error; an email present on exactly one row with handle `h` contributes
`@h`; and when no pending reviewer resolves at all, the reminder record is
still produced (with empty reviewer text) provided no approval, a passing
title and staleness hold. -/
theorem C7_unknown_emails_dropped :
    (∀ (users : List Person) (e : Str), (∀ u ∈ users, u.email ≠ e) →
        resolve_reviewers users [e] = []) ∧
    (∀ (pre post : List Person) (e : Str) (p : Person), p.email = e →
        (∀ u ∈ pre, u.email ≠ e) → (∀ u ∈ post, u.email ≠ e) →
        resolve_reviewers (pre ++ p :: post) [e] = ['@' :: p.slack]) ∧
    (∀ (users : List Person) (IGNORE_WORDS : List Str) (pr_url : Str) (now : ℚ)
        (strf : ℚ → Str) (pull : PullRequest),
        pull.reviewers ≠ [] →
        (∀ r ∈ pull.reviewers, r.approved = false) →
        (∀ r ∈ pull.reviewers, ∀ u ∈ users, u.email ≠ r.user.emailAddress) →
        is_valid_title IGNORE_WORDS pull.title = true →
        now - (pull.updatedDate : ℚ) / 1000 > PR_LAST_UPDATED →
        get_pull_requests_info users IGNORE_WORDS pr_url now strf pull =
          .details
            { author := pull.author.user.name
              pull_url := pr_url ++ natToStr pull.id
              last_updated := strf ((pull.updatedDate : ℚ) / 1000)
              title := pull.title
              reviewers := [] }) := by
  refine ⟨?_, ?_, ?_⟩
  · intro users e h
    rw [resolve_reviewers_singleton, filter_email_eq_nil users e h]
    rfl
  · intro pre post e p hp h1 h3
    rw [resolve_reviewers_singleton, List.filter_append, filter_email_eq_nil pre e h1,
      List.filter_cons, filter_email_eq_nil post e h3]
    simp [hp]
  · intro users ws pr_url now strf pull h1 h2 hunk h3 h4
    rw [info_pos users ws pr_url now strf pull h1 h2 h3 h4]
    have hres : resolve_reviewers users
        (pull.reviewers.map fun r => r.user.emailAddress) = [] := by
      refine resolve_reviewers_all_unknown users _ ?_
      intro r hr u hu
      obtain ⟨x, hx, rfl⟩ := List.mem_map.mp hr
      exact hunk x hx u hu
    rw [hres, angleJoin_nil]

/-- C7 witness: a directory with an unrelated row only; the lone pending
reviewer does not resolve, yet the record is produced with empty reviewer
text, and resolution of the unknown and of a present email behave as
stated. -/
theorem C7_unknown_emails_dropped_witness :
    resolve_reviewers [⟨"x".data, "o".data⟩] ["a".data] = [] ∧
    resolve_reviewers ([] ++ ⟨"ali".data, "a".data⟩ :: []) ["a".data] =
      ['@' :: "ali".data] ∧
    get_pull_requests_info [⟨"x".data, "o".data⟩] [] [] 18001 (fun _ => [])
        ⟨7, "T".data, ⟨⟨"b".data⟩⟩, 0, [⟨⟨"a".data⟩, false⟩]⟩ =
      .details ⟨"b".data, "7".data, [], "T".data, []⟩ :=
  ⟨C7_unknown_emails_dropped.1 [⟨"x".data, "o".data⟩] "a".data (by decide),
   C7_unknown_emails_dropped.2.1 [] [] "a".data ⟨"ali".data, "a".data⟩ rfl
     (by decide) (by decide),
   C7_unknown_emails_dropped.2.2 [⟨"x".data, "o".data⟩] [] [] 18001 (fun _ => [])
     ⟨7, "T".data, ⟨⟨"b".data⟩⟩, 0, [⟨⟨"a".data⟩, false⟩]⟩
     (by decide) (by decide) (by decide) (by decide)
     (by norm_num [PR_LAST_UPDATED])⟩

/-- C8: assuming the host invariant that `size` counts `values`, the run
sends exactly one batched payload carrying every formatted attachment when
some request yields a reminder record, sends nothing when none does, and in
particular sends nothing when the host returns zero open requests. -/
theorem C8_single_batched_delivery (users : List Person) (IGNORE_WORDS : List Str)
    (pr_url : Str) (now : ℚ) (strf : ℚ → Str) (channel : Str) (pulls : PullsResponse)
    (hsize : pulls.size = pulls.values.length) :
    ((∃ pull ∈ pulls.values,
        (get_pull_requests_info users IGNORE_WORDS pr_url now strf pull).isTruthy = true) →
      cli users IGNORE_WORDS pr_url now strf channel pulls =
        [mkSlackPayload
          (pulls.values.filterMap (attachment_of users IGNORE_WORDS pr_url now strf))
          channel]) ∧
    ((∀ pull ∈ pulls.values,
        (get_pull_requests_info users IGNORE_WORDS pr_url now strf pull).isTruthy = false) →
      cli users IGNORE_WORDS pr_url now strf channel pulls = []) ∧
    (pulls.values = [] → cli users IGNORE_WORDS pr_url now strf channel pulls = []) := by
  refine ⟨?_, ?_, ?_⟩
  · rintro ⟨pull, hmem, htruthy⟩
    have hvne : pulls.values ≠ [] := by
      intro hnil
      rw [hnil] at hmem
      cases hmem
    have hsz : pulls.size ≠ 0 := by
      rw [hsize]
      simpa using hvne
    have hsome : attachment_of users IGNORE_WORDS pr_url now strf pull ≠ none := by
      rw [Ne, attachment_of_eq_none_iff, htruthy]
      simp
    simp only [cli]
    rw [if_pos hsz, if_neg ?_]
    rw [List.isEmpty_iff]
    intro hnil
    exact hsome (List.filterMap_eq_nil_iff.mp hnil pull hmem)
  · intro hall
    by_cases hsz : pulls.size ≠ 0
    · have hnil : pulls.values.filterMap
          (attachment_of users IGNORE_WORDS pr_url now strf) = [] := by
        rw [List.filterMap_eq_nil_iff]
        intro pull hmem
        rw [attachment_of_eq_none_iff]
        exact hall pull hmem
      simp only [cli]
      rw [if_pos hsz, hnil]
      rfl
    · simp only [cli]
      rw [if_neg hsz]
      rfl
  · intro hnil
    simp only [cli]
    by_cases hsz : pulls.size ≠ 0
    · rw [if_pos hsz, hnil]
      rfl
    · rw [if_neg hsz]
      rfl

/-- C8 witness: one qualifying request yields exactly one batched delivery,
and the zero-open-requests response yields none. -/
theorem C8_single_batched_delivery_witness :
    cli [] [] [] 18001 (fun _ => []) "c".data
        ⟨1, [⟨7, "T".data, ⟨⟨"b".data⟩⟩, 0, [⟨⟨"a".data⟩, false⟩]⟩]⟩ =
      [mkSlackPayload
        ([⟨7, "T".data, ⟨⟨"b".data⟩⟩, 0, [⟨⟨"a".data⟩, false⟩]⟩].filterMap
          (attachment_of [] [] [] 18001 (fun _ => [])))
        "c".data] ∧
    cli [] [] [] 18001 (fun _ => []) "c".data ⟨0, []⟩ = [] := by
  have htr : (get_pull_requests_info [] [] [] 18001 (fun _ => [])
      ⟨7, "T".data, ⟨⟨"b".data⟩⟩, 0, [⟨⟨"a".data⟩, false⟩]⟩).isTruthy = true := by
    rw [info_pos [] [] [] 18001 (fun _ => [])
      ⟨7, "T".data, ⟨⟨"b".data⟩⟩, 0, [⟨⟨"a".data⟩, false⟩]⟩
      (by decide) (by decide) (by decide) (by norm_num [PR_LAST_UPDATED])]
    rfl
  exact
    ⟨(C8_single_batched_delivery [] [] [] 18001 (fun _ => []) "c".data
        ⟨1, [⟨7, "T".data, ⟨⟨"b".data⟩⟩, 0, [⟨⟨"a".data⟩, false⟩]⟩]⟩ rfl).1
      ⟨_, by decide, htr⟩,
     (C8_single_batched_delivery [] [] [] 18001 (fun _ => []) "c".data
        ⟨0, []⟩ rfl).2.2 rfl⟩

/-- C9: the delivery step performs exactly one POST (no retry) and raises
the fatal error exactly when the response status is not 200; on a 200
response it returns normally. -/
theorem C9_send_raises_iff_non_200 (text : List Attachment) (channel : Str)
    (status_code : Nat) :
    ((send_to_slack text channel status_code).2 = .ok () ↔ status_code = 200) ∧
    ((∃ msg, (send_to_slack text channel status_code).2 = .error msg) ↔
      status_code ≠ 200) ∧
    (send_to_slack text channel status_code).1 = [mkSlackPayload text channel] := by
  refine ⟨?_, ?_, rfl⟩ <;> by_cases h : status_code = 200 <;>
    simp [send_to_slack, h]

/-- C9 witness: status 200 returns normally, status 404 raises. -/
theorem C9_send_raises_iff_non_200_witness :
    (send_to_slack [] "c".data 200).2 = .ok () ∧
    (∃ msg, (send_to_slack [] "c".data 404).2 = .error msg) :=
  ⟨(C9_send_raises_iff_non_200 [] "c".data 200).1.mpr rfl,
   (C9_send_raises_iff_non_200 [] "c".data 404).2.1.mpr (by decide)⟩

/-- C10: if the configured ignore-word list contains the empty string (as a
trailing or doubled comma in the environment value produces), every title is
rejected, no request ever yields a reminder, and no delivery is made. -/
theorem C10_empty_ignore_word_blocks_all (IGNORE_WORDS : List Str)
    (h : [] ∈ IGNORE_WORDS) :
    (∀ title : Str, is_valid_title IGNORE_WORDS title = false) ∧
    (∀ (users : List Person) (pr_url : Str) (now : ℚ) (strf : ℚ → Str)
        (pull : PullRequest),
        (get_pull_requests_info users IGNORE_WORDS pr_url now strf pull).isTruthy = false) ∧
    (∀ (users : List Person) (pr_url : Str) (now : ℚ) (strf : ℚ → Str)
        (channel : Str) (pulls : PullsResponse),
        cli users IGNORE_WORDS pr_url now strf channel pulls = []) := by
  have htitle : ∀ title : Str, is_valid_title IGNORE_WORDS title = false := by
    intro title
    have hany : IGNORE_WORDS.any
        (fun w => strIn (lowerStr w) (lowerStr title)) = true :=
      List.any_eq_true.mpr ⟨[], h, strIn_nil_left _⟩
    rw [is_valid_title, hany]
    rfl
  have hinfo : ∀ (users : List Person) (pr_url : Str) (now : ℚ) (strf : ℚ → Str)
      (pull : PullRequest),
      (get_pull_requests_info users IGNORE_WORDS pr_url now strf pull).isTruthy = false := by
    intro users pr_url now strf pull
    rw [info_eq]
    by_cases hany : pull.reviewers.any (fun r => r.approved) = true
    · rw [if_pos hany]
      rfl
    · rw [if_neg hany]
      by_cases hemp : pull.reviewers.isEmpty = true
      · rw [if_pos hemp]
        rfl
      · rw [if_neg hemp, if_neg (by simp [htitle pull.title])]
        rfl
  refine ⟨htitle, hinfo, ?_⟩
  intro users pr_url now strf channel pulls
  by_cases hsz : pulls.size ≠ 0
  · have hnil : pulls.values.filterMap
        (attachment_of users IGNORE_WORDS pr_url now strf) = [] := by
      rw [List.filterMap_eq_nil_iff]
      intro pull hmem
      rw [attachment_of_eq_none_iff]
      exact hinfo users pr_url now strf pull
    simp only [cli]
    rw [if_pos hsz, hnil]
    rfl
  · simp only [cli]
    rw [if_neg hsz]
    rfl

/-- C10 witness: an ignore list with a trailing empty word rejects a title
and suppresses a request that would otherwise qualify. -/
theorem C10_empty_ignore_word_blocks_all_witness :
    is_valid_title ["a".data, []] ("Add feature".data) = false ∧
    (get_pull_requests_info [] ["a".data, []] [] 18001 (fun _ => [])
        ⟨7, "T".data, ⟨⟨"b".data⟩⟩, 0, [⟨⟨"e".data⟩, false⟩]⟩).isTruthy = false ∧
    cli [] ["a".data, []] [] 18001 (fun _ => []) "c".data
        ⟨1, [⟨7, "T".data, ⟨⟨"b".data⟩⟩, 0, [⟨⟨"e".data⟩, false⟩]⟩]⟩ = [] :=
  ⟨(C10_empty_ignore_word_blocks_all ["a".data, []] (by decide)).1 ("Add feature".data),
   (C10_empty_ignore_word_blocks_all ["a".data, []] (by decide)).2.1 [] [] 18001
     (fun _ => []) ⟨7, "T".data, ⟨⟨"b".data⟩⟩, 0, [⟨⟨"e".data⟩, false⟩]⟩,
   (C10_empty_ignore_word_blocks_all ["a".data, []] (by decide)).2.2 [] [] 18001
     (fun _ => []) "c".data ⟨1, [⟨7, "T".data, ⟨⟨"b".data⟩⟩, 0, [⟨⟨"e".data⟩, false⟩]⟩]⟩⟩
